import Mathlib

/-!
Verification of the OptiGen-core project-snapshot persistence component
(`src/react_agent/project_snapshot.py`) and its tool wrappers
(`src/react_agent/tools.py`).

The backing file `<directory>/optigen.json` is modelled as an
`Option ProjectSnapshot` (`none` = the file does not exist); the JSON
document itself is modelled by the `Json` inductive below.  Every
operation is a pure state transformer on a `ProjectSettings` record
holding the file content (`stored`) and the in-memory snapshot
(`project_snapshot`), mirroring the Python reload / mutate / persist
sequence executed under the class lock.
-/

/-- A JSON document, as produced by pydantic `model_dump_json` and
consumed by `model_validate_json`.  Numbers are restricted to integers,
which covers every numeric field of the data model
(`snapshot_version`, `rank`). -/
inductive Json where
  | null : Json
  | bool (b : Bool) : Json
  | num (n : Int) : Json
  | str (s : String) : Json
  | arr (xs : List Json) : Json
  | obj (fields : List (String × Json)) : Json

/-- The `Literal["hard", "soft"]` type of `Constraint.type`. -/
inductive CType where
  | hard : CType
  | soft : CType
deriving DecidableEq, Repr

/-- `Constraint` pydantic model: a constraint or objective in an
optimization problem.  `where` is a Lean keyword, so the source field
`where` is rendered `where_`. -/
structure Constraint where
  name : String
  description : String
  type : CType
  rank : Option Int := none
  formula : String := ""
  where_ : String := ""
deriving DecidableEq, Repr

/-- The keyword-argument mapping passed to
`ProjectSettings.update_constraint`; `none` means the field is absent
from the mapping.  `rank` is itself optional in the model, hence the
nested option. -/
structure ConstraintUpdate where
  name : Option String := none
  description : Option String := none
  type : Option CType := none
  rank : Option (Option Int) := none
  formula : Option String := none
  where_ : Option String := none
deriving DecidableEq, Repr

/-- `Constraint.model_copy(update=kwargs)`: fields present in the
mapping replace the prior value, absent fields keep it. -/
def Constraint.model_copy (c : Constraint) (u : ConstraintUpdate) : Constraint :=
  { name := u.name.getD c.name
    description := u.description.getD c.description
    type := u.type.getD c.type
    rank := u.rank.getD c.rank
    formula := u.formula.getD c.formula
    where_ := u.where_.getD c.where_ }

/-- `UserAPISchemaDefinition` pydantic model; each schema is a
`Dict[str, Any]`, modelled as the field list of a JSON object. -/
structure UserAPISchemaDefinition where
  request_schema : List (String × Json)
  response_schema : List (String × Json)

/-- `Scenario` pydantic model.  `request : pathlib.Path | None` is
modelled by the path string. -/
structure Scenario where
  name : Option String := none
  description : Option String := none
  request : Option String := none

/-- `ProjectSnapshot` pydantic model: the aggregate root persisted to
`optigen.json`. -/
structure ProjectSnapshot where
  optigen_snapshot_version : String := "0.0.3"
  snapshot_version : Int := 1
  title : Option String := none
  description : Option String := none
  constraints : List Constraint := []
  schema_definition : Option UserAPISchemaDefinition := none
  dataset : Option (List Scenario) := none

/-- The keyword-argument mapping passed to `ProjectSettings.update`
(`model_copy(update=kwargs)` on the snapshot); `none` means the field
is absent from the mapping. -/
structure SnapshotUpdate where
  optigen_snapshot_version : Option String := none
  snapshot_version : Option Int := none
  title : Option (Option String) := none
  description : Option (Option String) := none
  constraints : Option (List Constraint) := none
  schema_definition : Option (Option UserAPISchemaDefinition) := none
  dataset : Option (Option (List Scenario)) := none

/-- `ProjectSnapshot.model_copy(update=kwargs)`: a shallow merge of the
given fields onto the snapshot. -/
def ProjectSnapshot.model_copy (s : ProjectSnapshot) (u : SnapshotUpdate) : ProjectSnapshot :=
  { optigen_snapshot_version := u.optigen_snapshot_version.getD s.optigen_snapshot_version
    snapshot_version := u.snapshot_version.getD s.snapshot_version
    title := u.title.getD s.title
    description := u.description.getD s.description
    constraints := u.constraints.getD s.constraints
    schema_definition := u.schema_definition.getD s.schema_definition
    dataset := u.dataset.getD s.dataset }

/-- `ProjectSettings` state: `stored` is the content of the backing
file `optigen.json` (`none` when the file does not exist) and
`project_snapshot` is the in-memory snapshot. -/
structure ProjectSettings where
  stored : Option ProjectSnapshot
  project_snapshot : ProjectSnapshot

/-- An apostrophe character, used verbatim inside the Python error and
confirmation message strings. -/
def quo : String := String.singleton (Char.ofNat 39)

/-- `ProjectSettings._reload_from_disk`: replace the in-memory snapshot
with the file content when the file exists, otherwise keep it. -/
def ProjectSettings.reload_from_disk (st : ProjectSettings) : ProjectSettings :=
  match st.stored with
  | some s => { st with project_snapshot := s }
  | none => st

/-- `ProjectSettings._persist_unlocked`: atomically write the current
in-memory snapshot to the backing file. -/
def ProjectSettings.persist_unlocked (st : ProjectSettings) : ProjectSettings :=
  { st with stored := some st.project_snapshot }

/-- `ProjectSettings.update(**kwargs)`: reload the latest state from
disk, shallow-merge the given fields onto the snapshot, persist. -/
def ProjectSettings.update (st : ProjectSettings) (u : SnapshotUpdate) : ProjectSettings :=
  let st := st.reload_from_disk
  let st := { st with project_snapshot := st.project_snapshot.model_copy u }
  st.persist_unlocked

/-- `ProjectSettings.add_constraint`: reload, raise `ValueError` when a
constraint with the same name already exists (no write), otherwise
append and persist. -/
def ProjectSettings.add_constraint (st : ProjectSettings) (c : Constraint) :
    Except String Unit × ProjectSettings :=
  let st := st.reload_from_disk
  if st.project_snapshot.constraints.any (fun x => x.name == c.name) then
    (Except.error ("Constraint with name " ++ quo ++ c.name ++ quo ++ " already exists."), st)
  else
    let st := { st with project_snapshot :=
      { st.project_snapshot with constraints := st.project_snapshot.constraints ++ [c] } }
    (Except.ok (), st.persist_unlocked)

/-- `ProjectSettings.remove_constraint`: reload, drop every constraint
matching the name, persist only when the length decreased; returns
whether anything was removed. -/
def ProjectSettings.remove_constraint (st : ProjectSettings) (name : String) :
    Bool × ProjectSettings :=
  let st := st.reload_from_disk
  let original_length := st.project_snapshot.constraints.length
  let newcs := st.project_snapshot.constraints.filter (fun c => c.name != name)
  let st := { st with project_snapshot := { st.project_snapshot with constraints := newcs } }
  let removed := decide (newcs.length < original_length)
  if removed then (true, st.persist_unlocked) else (false, st)

/-- `ProjectSettings.get_constraint_by_name`: first match by name, pure
in-memory lookup. -/
def ProjectSettings.get_constraint_by_name (st : ProjectSettings) (name : String) :
    Option Constraint :=
  st.project_snapshot.constraints.find? (fun c => c.name == name)

/-- The for-loop in `update_constraint` that replaces the first
constraint whose name matches and then breaks. -/
def replaceFirst : List Constraint → String → Constraint → List Constraint
  | [], _, _ => []
  | c :: cs, name, updated =>
      if c.name == name then updated :: cs else c :: replaceFirst cs name updated

/-- `ProjectSettings.update_constraint`: reload, locate the first
constraint matching the name; if absent return `False` without
writing, else replace it by `model_copy(update=kwargs)`, persist,
return `True`. -/
def ProjectSettings.update_constraint (st : ProjectSettings) (name : String)
    (u : ConstraintUpdate) : Bool × ProjectSettings :=
  let st := st.reload_from_disk
  match st.project_snapshot.constraints.find? (fun c => c.name == name) with
  | none => (false, st)
  | some c =>
      let updated := c.model_copy u
      let newcs := replaceFirst st.project_snapshot.constraints name updated
      let st := { st with project_snapshot :=
        { st.project_snapshot with constraints := newcs } }
      (true, st.persist_unlocked)

/-- Python truthiness of the optional scenario name: `None` and the
empty string are falsy. -/
def truthy : Option String → Bool
  | none => false
  | some s => s != ""

/-- `ProjectSettings.add_scenario`: reload, initialize the dataset to
`[]` when it is `None`, raise `ValueError` when the scenario has a
truthy name equal to an existing scenario's name (no write), otherwise
append and persist. -/
def ProjectSettings.add_scenario (st : ProjectSettings) (sc : Scenario) :
    Except String Unit × ProjectSettings :=
  let st := st.reload_from_disk
  let ds := st.project_snapshot.dataset.getD []
  let st := { st with project_snapshot := { st.project_snapshot with dataset := some ds } }
  if truthy sc.name && ds.any (fun x => x.name == sc.name) then
    (Except.error ("Scenario with name " ++ quo ++ (sc.name.getD "") ++ quo ++ " already exists."), st)
  else
    let st := { st with project_snapshot :=
      { st.project_snapshot with dataset := some (ds ++ [sc]) } }
    (Except.ok (), st.persist_unlocked)

/-- `ProjectSettings.remove_scenario`: reload; when the dataset is
`None` return `False` without writing; otherwise drop every scenario
whose name equals the given name, persist only when the length
decreased; returns whether anything was removed. -/
def ProjectSettings.remove_scenario (st : ProjectSettings) (scenario_name : String) :
    Bool × ProjectSettings :=
  let st := st.reload_from_disk
  match st.project_snapshot.dataset with
  | none => (false, st)
  | some ds =>
      let newds := ds.filter (fun s => s.name != some scenario_name)
      let st := { st with project_snapshot := { st.project_snapshot with dataset := some newds } }
      let removed := decide (newds.length < ds.length)
      if removed then (true, st.persist_unlocked) else (false, st)

/-- Tool `update_project_metadata(title, description)` from `tools.py`:
empty / absent arguments are falsy, so the update is applied only for
truthy arguments; with no truthy argument the function returns
"No updates provided." without touching the settings.  The detailed
success message interpolates the arguments with `quo` quoting as in the
source f-strings. -/
def update_project_metadata (st : ProjectSettings) (title description : Option String) :
    String × ProjectSettings :=
  if truthy title && truthy description then
    let st := st.update { title := some title, description := some description }
    ("Successfully updated project metadata: title=" ++ quo ++ title.getD "" ++ quo ++
      ", description=" ++ quo ++ description.getD "" ++ quo ++ ".", st)
  else if truthy title then
    let st := st.update { title := some title }
    ("Successfully updated project metadata: title=" ++ quo ++ title.getD "" ++ quo ++ ".", st)
  else if truthy description then
    let st := st.update { description := some description }
    ("Successfully updated project metadata: description=" ++ quo ++ description.getD "" ++ quo ++ ".", st)
  else
    ("No updates provided.", st)

/-- Tool `update_request_schema(schema)` from `tools.py`: read the
current schema definition from the in-memory snapshot, keep its
response schema (or `{}` when no definition exists), and store the
combined replacement through `ProjectSettings.update`.  The
confirmation string (which merely echoes the schema) is elided. -/
def update_request_schema (st : ProjectSettings) (schema : List (String × Json)) :
    ProjectSettings :=
  let current_schema_def := st.project_snapshot.schema_definition
  let response_schema := match current_schema_def with
    | some d => d.response_schema
    | none => []
  let new_schema_def : UserAPISchemaDefinition :=
    { request_schema := schema, response_schema := response_schema }
  st.update { schema_definition := some (some new_schema_def) }

/-- Tool `update_response_schema(schema)` from `tools.py`: symmetric to
`update_request_schema`, keeping the current request schema (or `{}`). -/
def update_response_schema (st : ProjectSettings) (schema : List (String × Json)) :
    ProjectSettings :=
  let current_schema_def := st.project_snapshot.schema_definition
  let request_schema := match current_schema_def with
    | some d => d.request_schema
    | none => []
  let new_schema_def : UserAPISchemaDefinition :=
    { request_schema := request_schema, response_schema := schema }
  st.update { schema_definition := some (some new_schema_def) }

/-- Serialization of the `Literal["hard", "soft"]` enum. -/
def CType.toStr : CType → String
  | CType.hard => "hard"
  | CType.soft => "soft"

/-- Validation of the `Literal["hard", "soft"]` enum. -/
def CType.ofStr (s : String) : Option CType :=
  if s == "hard" then some CType.hard
  else if s == "soft" then some CType.soft
  else none

/-- Serialize an optional string field (`None` becomes JSON `null`). -/
def optStrJson : Option String → Json
  | none => Json.null
  | some s => Json.str s

/-- Serialize an optional integer field (`None` becomes JSON `null`). -/
def optIntJson : Option Int → Json
  | none => Json.null
  | some n => Json.num n

/-- Expect a JSON string. -/
def Json.asStr : Json → Option String
  | Json.str s => some s
  | _ => none

/-- Expect a JSON integer. -/
def Json.asInt : Json → Option Int
  | Json.num n => some n
  | _ => none

/-- Expect a JSON string or `null` (an optional string field). -/
def Json.asOptStr : Json → Option (Option String)
  | Json.null => some none
  | Json.str s => some (some s)
  | _ => none

/-- Expect a JSON integer or `null` (an optional integer field). -/
def Json.asOptInt : Json → Option (Option Int)
  | Json.null => some none
  | Json.num n => some (some n)
  | _ => none

/-- Expect a JSON object and return its field list. -/
def Json.asObj : Json → Option (List (String × Json))
  | Json.obj fs => some fs
  | _ => none

/-- Expect a JSON array and return its elements. -/
def Json.asArr : Json → Option (List Json)
  | Json.arr xs => some xs
  | _ => none

/-- Field lookup in a JSON object's field list (first match). -/
def lookupField : List (String × Json) → String → Option Json
  | [], _ => none
  | (k, v) :: rest, key => if k == key then some v else lookupField rest key

/-- Field lookup on a JSON value: defined only for objects. -/
def Json.getField (j : Json) (key : String) : Option Json :=
  match j with
  | Json.obj fs => lookupField fs key
  | _ => none

/-- `Constraint.model_dump`: the JSON object pydantic serializes a
constraint to, with the source field names verbatim. -/
def Constraint.model_dump (c : Constraint) : Json :=
  Json.obj
    [("name", Json.str c.name),
     ("description", Json.str c.description),
     ("type", Json.str c.type.toStr),
     ("rank", optIntJson c.rank),
     ("formula", Json.str c.formula),
     ("where", Json.str c.where_)]

/-- `Constraint` validation from a JSON value (field lookup by name, as
pydantic `model_validate` does). -/
def Constraint.model_validate (j : Json) : Option Constraint := do
  let name ← (← j.getField "name").asStr
  let description ← (← j.getField "description").asStr
  let type ← CType.ofStr (← (← j.getField "type").asStr)
  let rank ← (← j.getField "rank").asOptInt
  let formula ← (← j.getField "formula").asStr
  let where_ ← (← j.getField "where").asStr
  some { name := name, description := description, type := type,
         rank := rank, formula := formula, where_ := where_ }

/-- `Scenario.model_dump`: `request` paths are serialized as their
string form. -/
def Scenario.model_dump (s : Scenario) : Json :=
  Json.obj
    [("name", optStrJson s.name),
     ("description", optStrJson s.description),
     ("request", optStrJson s.request)]

/-- `Scenario` validation from a JSON value. -/
def Scenario.model_validate (j : Json) : Option Scenario := do
  let name ← (← j.getField "name").asOptStr
  let description ← (← j.getField "description").asOptStr
  let request ← (← j.getField "request").asOptStr
  some { name := name, description := description, request := request }

/-- `UserAPISchemaDefinition.model_dump`: both schemas are arbitrary
JSON objects. -/
def UserAPISchemaDefinition.model_dump (d : UserAPISchemaDefinition) : Json :=
  Json.obj
    [("request_schema", Json.obj d.request_schema),
     ("response_schema", Json.obj d.response_schema)]

/-- `UserAPISchemaDefinition` validation from a JSON value. -/
def UserAPISchemaDefinition.model_validate (j : Json) : Option UserAPISchemaDefinition := do
  let request_schema ← (← j.getField "request_schema").asObj
  let response_schema ← (← j.getField "response_schema").asObj
  some { request_schema := request_schema, response_schema := response_schema }

/-- Validate each element of a JSON array in order, failing if any
element fails (pydantic list validation). -/
def validateList (f : Json → Option α) : List Json → Option (List α)
  | [] => some []
  | j :: js => do
      let a ← f j
      let rest ← validateList f js
      some (a :: rest)

/-- `ProjectSnapshot.model_dump_json`: the JSON document written to
`optigen.json` (indentation is cosmetic and not modelled). -/
def ProjectSnapshot.model_dump_json (s : ProjectSnapshot) : Json :=
  Json.obj
    [("optigen_snapshot_version", Json.str s.optigen_snapshot_version),
     ("snapshot_version", Json.num s.snapshot_version),
     ("title", optStrJson s.title),
     ("description", optStrJson s.description),
     ("constraints", Json.arr (s.constraints.map Constraint.model_dump)),
     ("schema_definition",
        match s.schema_definition with
        | none => Json.null
        | some d => d.model_dump),
     ("dataset",
        match s.dataset with
        | none => Json.null
        | some ds => Json.arr (ds.map Scenario.model_dump))]

/-- Validation of the optional `schema_definition` field: `null` means
absent, otherwise the value must validate as a schema definition. -/
def validateOptSchemaDef : Json → Option (Option UserAPISchemaDefinition)
  | Json.null => some none
  | jd => (UserAPISchemaDefinition.model_validate jd).map some

/-- Validation of the optional `dataset` field: `null` means absent,
otherwise the value must be an array of valid scenarios. -/
def validateOptDataset : Json → Option (Option (List Scenario))
  | Json.null => some none
  | jd => (jd.asArr).bind fun xs => (validateList Scenario.model_validate xs).map some

/-- `ProjectSnapshot.model_validate_json`: parse the JSON document back
into a snapshot, failing (`CorruptSnapshot`) on any shape mismatch. -/
def ProjectSnapshot.model_validate_json (j : Json) : Option ProjectSnapshot := do
  let optigen_snapshot_version ← (← j.getField "optigen_snapshot_version").asStr
  let snapshot_version ← (← j.getField "snapshot_version").asInt
  let title ← (← j.getField "title").asOptStr
  let description ← (← j.getField "description").asOptStr
  let constraints ← validateList Constraint.model_validate (← (← j.getField "constraints").asArr)
  let schema_definition ← validateOptSchemaDef (← j.getField "schema_definition")
  let dataset ← validateOptDataset (← j.getField "dataset")
  some { optigen_snapshot_version := optigen_snapshot_version,
         snapshot_version := snapshot_version,
         title := title, description := description,
         constraints := constraints,
         schema_definition := schema_definition,
         dataset := dataset }

/-- Modelled from the spec: the `RunSolverScript` record of the
extended data model (solver-run records are described in spec sections
3 and 8 but no `RunSolverScript` code is present under `src/`). -/
structure RunSolverScript where
  solver_script_name : String
  input_file : String
  output_file : String
deriving DecidableEq, Repr

/-- Modelled from the spec: `Add(Run)` with composite-key uniqueness —
two runs are duplicates only when script name, input file and output
file are all identical; on a duplicate the add fails with
`DuplicateEntity` and stores nothing, otherwise the run is appended. -/
def add_run (runs : List RunSolverScript) (r : RunSolverScript) :
    Except String (List RunSolverScript) :=
  if runs.any (fun x =>
      x.solver_script_name == r.solver_script_name &&
      x.input_file == r.input_file &&
      x.output_file == r.output_file) then
    Except.error "DuplicateEntity"
  else
    Except.ok (runs ++ [r])

lemma reload_from_disk_stored (st : ProjectSettings) :
    st.reload_from_disk.stored = st.stored := by
  cases h : st.stored <;> simp [ProjectSettings.reload_from_disk, h]

lemma reload_from_disk_of_stored (st : ProjectSettings) (s : ProjectSnapshot)
    (h : st.stored = some s) :
    st.reload_from_disk = { st with project_snapshot := s } := by
  simp [ProjectSettings.reload_from_disk, h]

lemma reload_from_disk_of_none (st : ProjectSettings) (h : st.stored = none) :
    st.reload_from_disk = st := by
  simp [ProjectSettings.reload_from_disk, h]

/-- C10: when the dataset has never been initialized (`None`),
`remove_scenario` returns `False` for every name, performs no write
(the backing file is unchanged), and the dataset remains `None`. -/
theorem remove_scenario_uninitialized (st : ProjectSettings) (n : String)
    (h : st.reload_from_disk.project_snapshot.dataset = none) :
    (st.remove_scenario n).1 = false ∧
    (st.remove_scenario n).2.stored = st.stored ∧
    (st.remove_scenario n).2.project_snapshot.dataset = none := by
  unfold ProjectSettings.remove_scenario
  simp [h, reload_from_disk_stored]

/-- Witness for `remove_scenario_uninitialized` at a concrete state
with no backing file and a default snapshot. -/
theorem remove_scenario_uninitialized_witness :
    ((⟨none, {}⟩ : ProjectSettings).remove_scenario "s").1 = false ∧
    ((⟨none, {}⟩ : ProjectSettings).remove_scenario "s").2.stored = (⟨none, {}⟩ : ProjectSettings).stored ∧
    ((⟨none, {}⟩ : ProjectSettings).remove_scenario "s").2.project_snapshot.dataset = none :=
  remove_scenario_uninitialized ⟨none, {}⟩ "s" rfl

/-- C2: adding a constraint whose name equals an existing stored
constraint's name fails with the duplicate-entity `ValueError` and
leaves the stored constraints list unchanged, with no write to the
backing file. -/
theorem add_constraint_duplicate_rejected (st : ProjectSettings) (s : ProjectSnapshot)
    (c : Constraint) (hs : st.stored = some s)
    (hc : ∃ x ∈ s.constraints, x.name = c.name) :
    (st.add_constraint c).1 =
      Except.error ("Constraint with name " ++ quo ++ c.name ++ quo ++ " already exists.") ∧
    (st.add_constraint c).2.stored = some s ∧
    (st.add_constraint c).2.project_snapshot.constraints = s.constraints := by
  have hany : s.constraints.any (fun x => x.name == c.name) = true := by
    rw [List.any_eq_true]
    obtain ⟨x, hx, he⟩ := hc
    exact ⟨x, hx, by simp [he]⟩
  simp [ProjectSettings.add_constraint, ProjectSettings.reload_from_disk, hs, hany]

/-- Witness for `add_constraint_duplicate_rejected` at a concrete state
whose stored snapshot already holds a constraint named `c1`. -/
theorem add_constraint_duplicate_rejected_witness :
    (ProjectSettings.add_constraint
        ⟨some { constraints := [{ name := "c1", description := "", type := CType.hard }] }, {}⟩
        { name := "c1", description := "other", type := CType.soft }).1 =
      Except.error ("Constraint with name " ++ quo ++ "c1" ++ quo ++ " already exists.") ∧
    (ProjectSettings.add_constraint
        ⟨some { constraints := [{ name := "c1", description := "", type := CType.hard }] }, {}⟩
        { name := "c1", description := "other", type := CType.soft }).2.stored =
      some { constraints := [{ name := "c1", description := "", type := CType.hard }] } ∧
    (ProjectSettings.add_constraint
        ⟨some { constraints := [{ name := "c1", description := "", type := CType.hard }] }, {}⟩
        { name := "c1", description := "other", type := CType.soft }).2.project_snapshot.constraints =
      [{ name := "c1", description := "", type := CType.hard }] :=
  add_constraint_duplicate_rejected _ _ _ rfl
    ⟨{ name := "c1", description := "", type := CType.hard }, by simp, rfl⟩

/-- C8: when no schema definition exists in the in-memory snapshot,
`update_request_schema R` stores `(R, {})` and `update_response_schema P`
stores `({}, P)` — the missing half is initialized to the empty
mapping. -/
theorem schema_update_initializes_missing_half (st : ProjectSettings)
    (R P : List (String × Json)) (h : st.project_snapshot.schema_definition = none) :
    (update_request_schema st R).project_snapshot.schema_definition =
      some { request_schema := R, response_schema := [] } ∧
    (update_request_schema st R).stored =
      some (update_request_schema st R).project_snapshot ∧
    (update_response_schema st P).project_snapshot.schema_definition =
      some { request_schema := [], response_schema := P } ∧
    (update_response_schema st P).stored =
      some (update_response_schema st P).project_snapshot := by
  cases hs : st.stored <;>
    simp [update_request_schema, update_response_schema, ProjectSettings.update,
      ProjectSettings.reload_from_disk, ProjectSettings.persist_unlocked,
      ProjectSnapshot.model_copy, h, hs]

/-- Witness for `schema_update_initializes_missing_half` at a concrete
fresh state with no schema definition. -/
theorem schema_update_initializes_missing_half_witness :
    (update_request_schema ⟨none, {}⟩ [("a", Json.null)]).project_snapshot.schema_definition =
      some { request_schema := [("a", Json.null)], response_schema := [] } ∧
    (update_request_schema ⟨none, {}⟩ [("a", Json.null)]).stored =
      some (update_request_schema ⟨none, {}⟩ [("a", Json.null)]).project_snapshot ∧
    (update_response_schema ⟨none, {}⟩ [("b", Json.num 1)]).project_snapshot.schema_definition =
      some { request_schema := [], response_schema := [("b", Json.num 1)] } ∧
    (update_response_schema ⟨none, {}⟩ [("b", Json.num 1)]).stored =
      some (update_response_schema ⟨none, {}⟩ [("b", Json.num 1)]).project_snapshot :=
  schema_update_initializes_missing_half ⟨none, {}⟩ [("a", Json.null)] [("b", Json.num 1)] rfl

/-- C5: with a stored schema definition `(R1, P1)` (and the in-memory
snapshot in sync with the backing file), `update_request_schema R2`
stores exactly `(R2, P1)` and `update_response_schema P2` stores
exactly `(R1, P2)` — the untouched half is preserved. -/
theorem schema_update_preserves_other_half (st : ProjectSettings) (s : ProjectSnapshot)
    (R1 P1 R2 P2 : List (String × Json))
    (hs : st.stored = some s) (hmem : st.project_snapshot = s)
    (hdef : s.schema_definition = some { request_schema := R1, response_schema := P1 }) :
    (update_request_schema st R2).project_snapshot.schema_definition =
      some { request_schema := R2, response_schema := P1 } ∧
    (update_request_schema st R2).stored =
      some (update_request_schema st R2).project_snapshot ∧
    (update_response_schema st P2).project_snapshot.schema_definition =
      some { request_schema := R1, response_schema := P2 } ∧
    (update_response_schema st P2).stored =
      some (update_response_schema st P2).project_snapshot := by
  simp [update_request_schema, update_response_schema, ProjectSettings.update,
    ProjectSettings.reload_from_disk, ProjectSettings.persist_unlocked,
    ProjectSnapshot.model_copy, hs, hmem, hdef]

/-- Witness for `schema_update_preserves_other_half` at a concrete
synced state holding request schema `{"r": null}` and response schema
`{"p": null}`. -/
theorem schema_update_preserves_other_half_witness :
    (update_request_schema
        ⟨some { schema_definition := some { request_schema := [("r", Json.null)], response_schema := [("p", Json.null)] } },
         { schema_definition := some { request_schema := [("r", Json.null)], response_schema := [("p", Json.null)] } }⟩
        [("r2", Json.null)]).project_snapshot.schema_definition =
      some { request_schema := [("r2", Json.null)], response_schema := [("p", Json.null)] } ∧
    (update_request_schema
        ⟨some { schema_definition := some { request_schema := [("r", Json.null)], response_schema := [("p", Json.null)] } },
         { schema_definition := some { request_schema := [("r", Json.null)], response_schema := [("p", Json.null)] } }⟩
        [("r2", Json.null)]).stored =
      some (update_request_schema
        ⟨some { schema_definition := some { request_schema := [("r", Json.null)], response_schema := [("p", Json.null)] } },
         { schema_definition := some { request_schema := [("r", Json.null)], response_schema := [("p", Json.null)] } }⟩
        [("r2", Json.null)]).project_snapshot ∧
    (update_response_schema
        ⟨some { schema_definition := some { request_schema := [("r", Json.null)], response_schema := [("p", Json.null)] } },
         { schema_definition := some { request_schema := [("r", Json.null)], response_schema := [("p", Json.null)] } }⟩
        [("p2", Json.null)]).project_snapshot.schema_definition =
      some { request_schema := [("r", Json.null)], response_schema := [("p2", Json.null)] } ∧
    (update_response_schema
        ⟨some { schema_definition := some { request_schema := [("r", Json.null)], response_schema := [("p", Json.null)] } },
         { schema_definition := some { request_schema := [("r", Json.null)], response_schema := [("p", Json.null)] } }⟩
        [("p2", Json.null)]).stored =
      some (update_response_schema
        ⟨some { schema_definition := some { request_schema := [("r", Json.null)], response_schema := [("p", Json.null)] } },
         { schema_definition := some { request_schema := [("r", Json.null)], response_schema := [("p", Json.null)] } }⟩
        [("p2", Json.null)]).project_snapshot :=
  schema_update_preserves_other_half _ _ [("r", Json.null)] [("p", Json.null)]
    [("r2", Json.null)] [("p2", Json.null)] rfl rfl rfl

/-- C9: `update_project_metadata` treats empty strings like absent
arguments — with no truthy argument it returns "No updates provided."
and leaves the state untouched — and it can never newly set the title
or description to the empty string (an empty value after the call can
only come from the prior in-memory or reloaded on-disk snapshot). -/
theorem update_project_metadata_spec (st : ProjectSettings) (t d : Option String) :
    (truthy t = false → truthy d = false →
      update_project_metadata st t d = ("No updates provided.", st)) ∧
    ((update_project_metadata st t d).2.project_snapshot.title = some "" →
      st.project_snapshot.title = some "" ∨
        st.reload_from_disk.project_snapshot.title = some "") ∧
    ((update_project_metadata st t d).2.project_snapshot.description = some "" →
      st.project_snapshot.description = some "" ∨
        st.reload_from_disk.project_snapshot.description = some "") := by
  refine ⟨?_, ?_, ?_⟩
  · intro h1 h2
    simp [update_project_metadata, h1, h2]
  · intro hx
    cases ht : truthy t <;> cases hd : truthy d
    · left
      simpa [update_project_metadata, ht, hd] using hx
    · right
      cases hstored : st.stored <;>
        simpa [update_project_metadata, ht, hd, ProjectSettings.update,
          ProjectSettings.reload_from_disk, ProjectSettings.persist_unlocked,
          ProjectSnapshot.model_copy, hstored] using hx
    · exfalso
      cases hstored : st.stored <;>
        simp [update_project_metadata, ht, hd, ProjectSettings.update,
          ProjectSettings.reload_from_disk, ProjectSettings.persist_unlocked,
          ProjectSnapshot.model_copy, hstored] at hx <;>
        (rw [hx] at ht; simp [truthy] at ht)
    · exfalso
      cases hstored : st.stored <;>
        simp [update_project_metadata, ht, hd, ProjectSettings.update,
          ProjectSettings.reload_from_disk, ProjectSettings.persist_unlocked,
          ProjectSnapshot.model_copy, hstored] at hx <;>
        (rw [hx] at ht; simp [truthy] at ht)
  · intro hx
    cases ht : truthy t <;> cases hd : truthy d
    · left
      simpa [update_project_metadata, ht, hd] using hx
    · exfalso
      cases hstored : st.stored <;>
        simp [update_project_metadata, ht, hd, ProjectSettings.update,
          ProjectSettings.reload_from_disk, ProjectSettings.persist_unlocked,
          ProjectSnapshot.model_copy, hstored] at hx <;>
        (rw [hx] at hd; simp [truthy] at hd)
    · right
      cases hstored : st.stored <;>
        simpa [update_project_metadata, ht, hd, ProjectSettings.update,
          ProjectSettings.reload_from_disk, ProjectSettings.persist_unlocked,
          ProjectSnapshot.model_copy, hstored] using hx
    · exfalso
      cases hstored : st.stored <;>
        simp [update_project_metadata, ht, hd, ProjectSettings.update,
          ProjectSettings.reload_from_disk, ProjectSettings.persist_unlocked,
          ProjectSnapshot.model_copy, hstored] at hx <;>
        (rw [hx] at hd; simp [truthy] at hd)

/-- Witness for `update_project_metadata_spec`: a call with an absent
title and an empty description is a no-op, and an empty title or
description surviving a no-op call stems from the prior snapshot. -/
theorem update_project_metadata_spec_witness :
    update_project_metadata ⟨none, {}⟩ none (some "") = ("No updates provided.", ⟨none, {}⟩) ∧
    ((⟨none, { title := some "", description := some "" }⟩ : ProjectSettings).project_snapshot.title = some "" ∨
      (⟨none, { title := some "", description := some "" }⟩ : ProjectSettings).reload_from_disk.project_snapshot.title = some "") ∧
    ((⟨none, { title := some "", description := some "" }⟩ : ProjectSettings).project_snapshot.description = some "" ∨
      (⟨none, { title := some "", description := some "" }⟩ : ProjectSettings).reload_from_disk.project_snapshot.description = some "") :=
  ⟨(update_project_metadata_spec ⟨none, {}⟩ none (some "")).1 rfl rfl,
   (update_project_metadata_spec ⟨none, { title := some "", description := some "" }⟩ none none).2.1 rfl,
   (update_project_metadata_spec ⟨none, { title := some "", description := some "" }⟩ none none).2.2 rfl⟩

/-- The default (fully unnamed) scenario, used as a concrete witness
input. -/
def unnamedScenario : Scenario := { name := none, description := none, request := none }

/-- A concrete scenario named "s1", used as a concrete witness input. -/
def namedScenario : Scenario := { name := some "s1", description := none, request := none }

/-- C6: `add_scenario` applies the duplicate-name check only for a
truthy (non-null, non-empty) name — an unnamed or empty-named scenario
is always appended, while a truthy name equal to an existing
scenario's name raises the duplicate `ValueError` without writing. -/
theorem add_scenario_duplicate_policy (st : ProjectSettings) (sc : Scenario) :
    (truthy sc.name = false →
      (st.add_scenario sc).1 = Except.ok () ∧
      (st.add_scenario sc).2.project_snapshot.dataset =
        some (st.reload_from_disk.project_snapshot.dataset.getD [] ++ [sc]) ∧
      (st.add_scenario sc).2.stored = some (st.add_scenario sc).2.project_snapshot) ∧
    (∀ n, sc.name = some n → n ≠ "" →
      (∃ x ∈ st.reload_from_disk.project_snapshot.dataset.getD [], x.name = sc.name) →
      (st.add_scenario sc).1 =
        Except.error ("Scenario with name " ++ quo ++ n ++ quo ++ " already exists.") ∧
      (st.add_scenario sc).2.stored = st.stored ∧
      (st.add_scenario sc).2.project_snapshot.dataset =
        some (st.reload_from_disk.project_snapshot.dataset.getD [])) := by
  constructor
  · intro hf
    simp [ProjectSettings.add_scenario, ProjectSettings.persist_unlocked, hf,
      reload_from_disk_stored]
  · intro n hn hne hex
    rw [hn] at hex
    have htr : truthy (some n) = true := by simp [truthy, hne]
    simp [ProjectSettings.add_scenario, ProjectSettings.persist_unlocked, hn, htr, hex,
      reload_from_disk_stored]

/-- Witness for `add_scenario_duplicate_policy`: an unnamed scenario is
appended next to an existing unnamed scenario, and a scenario named
"s1" is rejected when a scenario named "s1" is already present. -/
theorem add_scenario_duplicate_policy_witness :
    ((ProjectSettings.add_scenario ⟨none, { dataset := some [unnamedScenario] }⟩ unnamedScenario).1 = Except.ok () ∧
      (ProjectSettings.add_scenario ⟨none, { dataset := some [unnamedScenario] }⟩ unnamedScenario).2.project_snapshot.dataset =
        some ((⟨none, { dataset := some [unnamedScenario] }⟩ : ProjectSettings).reload_from_disk.project_snapshot.dataset.getD [] ++ [unnamedScenario]) ∧
      (ProjectSettings.add_scenario ⟨none, { dataset := some [unnamedScenario] }⟩ unnamedScenario).2.stored =
        some (ProjectSettings.add_scenario ⟨none, { dataset := some [unnamedScenario] }⟩ unnamedScenario).2.project_snapshot) ∧
    ((ProjectSettings.add_scenario ⟨none, { dataset := some [namedScenario] }⟩ namedScenario).1 =
        Except.error ("Scenario with name " ++ quo ++ "s1" ++ quo ++ " already exists.") ∧
      (ProjectSettings.add_scenario ⟨none, { dataset := some [namedScenario] }⟩ namedScenario).2.stored =
        (⟨none, { dataset := some [namedScenario] }⟩ : ProjectSettings).stored ∧
      (ProjectSettings.add_scenario ⟨none, { dataset := some [namedScenario] }⟩ namedScenario).2.project_snapshot.dataset =
        some ((⟨none, { dataset := some [namedScenario] }⟩ : ProjectSettings).reload_from_disk.project_snapshot.dataset.getD [])) :=
  ⟨(add_scenario_duplicate_policy ⟨none, { dataset := some [unnamedScenario] }⟩ unnamedScenario).1 rfl,
   (add_scenario_duplicate_policy ⟨none, { dataset := some [namedScenario] }⟩ namedScenario).2
      "s1" rfl (by decide) ⟨namedScenario, List.mem_singleton.mpr rfl, rfl⟩⟩

/-- C7: run records are unique under the composite key of all three
fields — `add_run` fails with `DuplicateEntity` exactly when a stored
run agrees on script name, input file and output file, and otherwise
appends the run. -/
theorem add_run_composite_key (runs : List RunSolverScript) (r : RunSolverScript) :
    (add_run runs r = Except.error "DuplicateEntity" ↔
      ∃ x ∈ runs, x.solver_script_name = r.solver_script_name ∧
        x.input_file = r.input_file ∧ x.output_file = r.output_file) ∧
    ((¬ ∃ x ∈ runs, x.solver_script_name = r.solver_script_name ∧
        x.input_file = r.input_file ∧ x.output_file = r.output_file) →
      add_run runs r = Except.ok (runs ++ [r])) := by
  have key : (runs.any (fun x =>
      x.solver_script_name == r.solver_script_name &&
      x.input_file == r.input_file &&
      x.output_file == r.output_file)) = true ↔
      ∃ x ∈ runs, x.solver_script_name = r.solver_script_name ∧
        x.input_file = r.input_file ∧ x.output_file = r.output_file := by
    rw [List.any_eq_true]
    constructor
    · rintro ⟨x, hx, hb⟩
      simp only [Bool.and_eq_true, beq_iff_eq] at hb
      exact ⟨x, hx, hb.1.1, hb.1.2, hb.2⟩
    · rintro ⟨x, hx, h1, h2, h3⟩
      exact ⟨x, hx, by simp [h1, h2, h3]⟩
  have herr : (add_run runs r = Except.error "DuplicateEntity") ↔
      (runs.any (fun x =>
        x.solver_script_name == r.solver_script_name &&
        x.input_file == r.input_file &&
        x.output_file == r.output_file)) = true := by
    cases hb : (runs.any (fun x =>
        x.solver_script_name == r.solver_script_name &&
        x.input_file == r.input_file &&
        x.output_file == r.output_file)) <;> simp [add_run, hb]
  refine ⟨herr.trans key, ?_⟩
  intro hne
  have h : (runs.any (fun x =>
      x.solver_script_name == r.solver_script_name &&
      x.input_file == r.input_file &&
      x.output_file == r.output_file)) = false := by
    rw [Bool.eq_false_iff]
    exact fun hc => hne (key.mp hc)
  simp [add_run, h]

/-- Witness for `add_run_composite_key`, following the spec example:
with run `(s1, a.json, b.json)` stored, adding `(s1, a.json, c.json)`
succeeds (two runs stored) and re-adding the exact stored triple fails
with `DuplicateEntity`. -/
theorem add_run_composite_key_witness :
    add_run [⟨"s1", "a.json", "b.json"⟩] ⟨"s1", "a.json", "c.json"⟩ =
      Except.ok [⟨"s1", "a.json", "b.json"⟩, ⟨"s1", "a.json", "c.json"⟩] ∧
    add_run [⟨"s1", "a.json", "b.json"⟩, ⟨"s1", "a.json", "c.json"⟩] ⟨"s1", "a.json", "b.json"⟩ =
      Except.error "DuplicateEntity" :=
  ⟨(add_run_composite_key [⟨"s1", "a.json", "b.json"⟩] ⟨"s1", "a.json", "c.json"⟩).2 (by decide),
   (add_run_composite_key [⟨"s1", "a.json", "b.json"⟩, ⟨"s1", "a.json", "c.json"⟩]
      ⟨"s1", "a.json", "b.json"⟩).1.mpr ⟨⟨"s1", "a.json", "b.json"⟩, by simp, rfl, rfl, rfl⟩⟩

lemma find_name_split (pre post : List Constraint) (c : Constraint) (n : String)
    (hc : c.name = n) (hpre : ∀ x ∈ pre, x.name ≠ n) :
    (pre ++ c :: post).find? (fun x => x.name == n) = some c := by
  induction pre with
  | nil => simp [List.find?, hc]
  | cons a as ih =>
      have ha : (a.name == n) = false := by
        simp [hpre a (List.mem_cons_self a as)]
      simp only [List.cons_append, List.find?, ha]
      exact ih (fun x hx => hpre x (List.mem_cons_of_mem a hx))

lemma replaceFirst_split (pre post : List Constraint) (c d : Constraint) (n : String)
    (hc : c.name = n) (hpre : ∀ x ∈ pre, x.name ≠ n) :
    replaceFirst (pre ++ c :: post) n d = pre ++ d :: post := by
  induction pre with
  | nil => simp [replaceFirst, hc]
  | cons a as ih =>
      have ha : (a.name == n) = false := by
        simp [hpre a (List.mem_cons_self a as)]
      simp only [List.cons_append, replaceFirst, ha, Bool.false_eq_true, if_false,
        List.cons.injEq, true_and]
      exact ih (fun x hx => hpre x (List.mem_cons_of_mem a hx))

/-- C3: `update_constraint` returns `False` and performs no write when
no constraint matches the name; otherwise it replaces the first
matching constraint by a copy with the mapping's fields merged in
(absent fields keep their prior value), persists, and returns `True`. -/
theorem update_constraint_spec (st : ProjectSettings) (n : String) (u : ConstraintUpdate) :
    ((∀ x ∈ st.reload_from_disk.project_snapshot.constraints, x.name ≠ n) →
      (st.update_constraint n u).1 = false ∧
      (st.update_constraint n u).2.stored = st.stored ∧
      (st.update_constraint n u).2.project_snapshot = st.reload_from_disk.project_snapshot) ∧
    (∀ pre c post, st.reload_from_disk.project_snapshot.constraints = pre ++ c :: post →
      c.name = n → (∀ x ∈ pre, x.name ≠ n) →
      (st.update_constraint n u).1 = true ∧
      (st.update_constraint n u).2.project_snapshot.constraints =
        pre ++ c.model_copy u :: post ∧
      (st.update_constraint n u).2.stored =
        some (st.update_constraint n u).2.project_snapshot ∧
      (u.description = none → (c.model_copy u).description = c.description) ∧
      (∀ dsc, u.description = some dsc → (c.model_copy u).description = dsc) ∧
      (u.type = none → (c.model_copy u).type = c.type) ∧
      (u.rank = none → (c.model_copy u).rank = c.rank) ∧
      (u.formula = none → (c.model_copy u).formula = c.formula) ∧
      (u.where_ = none → (c.model_copy u).where_ = c.where_) ∧
      (u.name = none → (c.model_copy u).name = c.name)) := by
  constructor
  · intro habs
    have hf : st.reload_from_disk.project_snapshot.constraints.find?
        (fun x => x.name == n) = none := by
      rw [List.find?_eq_none]
      intro x hx
      simp [habs x hx]
    unfold ProjectSettings.update_constraint
    simp only [hf]
    simp [reload_from_disk_stored]
  · intro pre c post hsplit hc hpre
    have hf : st.reload_from_disk.project_snapshot.constraints.find?
        (fun x => x.name == n) = some c := by
      rw [hsplit]
      exact find_name_split pre post c n hc hpre
    have hrf : replaceFirst st.reload_from_disk.project_snapshot.constraints n
        (c.model_copy u) = pre ++ c.model_copy u :: post := by
      rw [hsplit]
      exact replaceFirst_split pre post c (c.model_copy u) n hc hpre
    unfold ProjectSettings.update_constraint
    simp only [hf, hrf]
    refine ⟨?_, ?_, ?_, ?_, ?_, ?_, ?_, ?_, ?_, ?_⟩ <;>
      · intros
        simp_all [Constraint.model_copy, ProjectSettings.persist_unlocked]

/-- A concrete `hard` constraint named "c1", used as a witness input. -/
def cw1 : Constraint := { name := "c1", description := "", type := CType.hard }

/-- The update mapping `{description: "x"}`, used as a witness input. -/
def uw : ConstraintUpdate := { description := some "x" }

/-- Witness for `update_constraint_spec`, following the spec example:
updating `description` of the stored constraint "c1" succeeds, yields
description "x" with `type` still `hard`, and updating in an empty
list returns `False`. -/
theorem update_constraint_spec_witness :
    ((⟨none, { constraints := [cw1] }⟩ : ProjectSettings).update_constraint "c1" uw).1 = true ∧
    ((⟨none, { constraints := [cw1] }⟩ : ProjectSettings).update_constraint "c1" uw).2.project_snapshot.constraints =
      [] ++ cw1.model_copy uw :: [] ∧
    (cw1.model_copy uw).description = "x" ∧
    (cw1.model_copy uw).type = cw1.type ∧
    ((⟨none, {}⟩ : ProjectSettings).update_constraint "c1" uw).1 = false := by
  have h := (update_constraint_spec ⟨none, { constraints := [cw1] }⟩ "c1" uw).2
    [] cw1 [] rfl rfl (fun x hx => nomatch hx)
  have h0 := (update_constraint_spec ⟨none, {}⟩ "c1" uw).1 (fun x hx => nomatch hx)
  exact ⟨h.1, h.2.1, h.2.2.2.2.1 "x" rfl, h.2.2.2.2.2.1 rfl, h0.1⟩

lemma ctype_roundtrip (t : CType) : CType.ofStr t.toStr = some t := by
  cases t <;> rfl

lemma constraint_roundtrip (c : Constraint) :
    Constraint.model_validate c.model_dump = some c := by
  obtain ⟨nm, de, ty, rk, fo, wh⟩ := c
  cases ty <;> cases rk <;> rfl

lemma scenario_roundtrip (s : Scenario) :
    Scenario.model_validate s.model_dump = some s := by
  obtain ⟨nm, de, rq⟩ := s
  cases nm <;> cases de <;> cases rq <;> rfl

lemma schemadef_roundtrip (d : UserAPISchemaDefinition) :
    UserAPISchemaDefinition.model_validate d.model_dump = some d := by
  obtain ⟨rq, rs⟩ := d
  rfl

lemma validateList_roundtrip {α : Type} (f : Json → Option α) (g : α → Json)
    (h : ∀ a, f (g a) = some a) (l : List α) :
    validateList f (l.map g) = some l := by
  induction l with
  | nil => rfl
  | cons a as ih => simp [validateList, h a, ih]

lemma validateOptSchemaDef_null : validateOptSchemaDef Json.null = some none := rfl

lemma validateOptSchemaDef_some (d : UserAPISchemaDefinition) :
    validateOptSchemaDef d.model_dump = some (some d) := by
  obtain ⟨rq, rs⟩ := d
  rfl

lemma validateOptDataset_null : validateOptDataset Json.null = some none := rfl

lemma validateOptDataset_some (ds : List Scenario) :
    validateOptDataset (Json.arr (ds.map Scenario.model_dump)) = some (some ds) := by
  simp [validateOptDataset, Json.asArr,
    validateList_roundtrip Scenario.model_validate Scenario.model_dump scenario_roundtrip]

/-- C4: serialization round trip — deserializing the JSON document
produced by serializing any snapshot `S` yields exactly `S`,
field-for-field. -/
theorem snapshot_roundtrip (S : ProjectSnapshot) :
    ProjectSnapshot.model_validate_json S.model_dump_json = some S := by
  obtain ⟨v, sv, t, de, cs, sd, ds⟩ := S
  cases t <;> cases de <;> cases sd <;> cases ds <;>
    simp [ProjectSnapshot.model_dump_json, ProjectSnapshot.model_validate_json,
      Json.getField, lookupField, Json.asStr, Json.asInt, Json.asOptStr, Json.asArr,
      optStrJson, validateOptSchemaDef_null, validateOptSchemaDef_some,
      validateOptDataset_null, validateOptDataset_some,
      validateList_roundtrip Constraint.model_validate Constraint.model_dump
        constraint_roundtrip]

/-- The names in a constraints list are pairwise distinct. -/
def namesDistinct (cs : List Constraint) : Prop :=
  (cs.map Constraint.name).Nodup

/-- The uniqueness invariant over a settings state: constraint names
are pairwise distinct both in the in-memory snapshot and in the
backing file. -/
def SettingsInv (st : ProjectSettings) : Prop :=
  namesDistinct st.project_snapshot.constraints ∧
    ∀ s ∈ st.stored, namesDistinct s.constraints

lemma settingsInv_reload (st : ProjectSettings) (h : SettingsInv st) :
    SettingsInv st.reload_from_disk := by
  obtain ⟨h1, h2⟩ := h
  cases hs : st.stored with
  | none =>
      rw [reload_from_disk_of_none st hs]
      exact ⟨h1, h2⟩
  | some s =>
      rw [reload_from_disk_of_stored st s hs]
      exact ⟨h2 s (Option.mem_def.mpr hs), h2⟩

lemma settingsInv_persist (st : ProjectSettings)
    (h : namesDistinct st.project_snapshot.constraints) :
    SettingsInv st.persist_unlocked := by
  refine ⟨h, ?_⟩
  intro s hs
  simp only [ProjectSettings.persist_unlocked, Option.mem_def, Option.some.injEq] at hs
  rw [← hs]
  exact h

lemma namesDistinct_filter (cs : List Constraint) (p : Constraint → Bool)
    (h : namesDistinct cs) : namesDistinct (cs.filter p) :=
  List.Nodup.sublist (List.Sublist.map Constraint.name (List.filter_sublist cs)) h

lemma namesDistinct_append (cs : List Constraint) (c : Constraint)
    (h : namesDistinct cs) (hn : cs.any (fun x => x.name == c.name) = false) :
    namesDistinct (cs ++ [c]) := by
  simp only [List.any_eq_false, beq_iff_eq] at hn
  unfold namesDistinct at *
  rw [List.map_append, List.nodup_append]
  refine ⟨h, List.nodup_singleton _, ?_⟩
  intro a ha hb
  simp only [List.map_cons, List.map_nil, List.mem_singleton] at hb
  obtain ⟨x, hx, hxa⟩ := List.mem_map.mp ha
  exact hn x hx (hxa.trans hb)

lemma replaceFirst_name_subset (n : String) (d : Constraint) :
    ∀ cs, ∀ x ∈ replaceFirst cs n d, x ∈ cs ∨ x = d := by
  intro cs
  induction cs with
  | nil => intro x hx; cases hx
  | cons a as ih =>
      intro x hx
      by_cases ha : (a.name == n) = true
      · simp only [replaceFirst, if_pos ha, List.mem_cons] at hx
        rcases hx with h1 | h1
        · exact Or.inr h1
        · exact Or.inl (List.mem_cons_of_mem a h1)
      · simp only [replaceFirst, if_neg ha, List.mem_cons] at hx
        rcases hx with h1 | h1
        · exact Or.inl (h1 ▸ List.mem_cons_self a as)
        · rcases ih x h1 with h2 | h2
          · exact Or.inl (List.mem_cons_of_mem a h2)
          · exact Or.inr h2

lemma replaceFirst_nodup (n : String) (d : Constraint) :
    ∀ cs, namesDistinct cs → (d.name = n ∨ ∀ x ∈ cs, x.name ≠ d.name) →
      namesDistinct (replaceFirst cs n d) := by
  intro cs
  induction cs with
  | nil => intro h _; simpa [replaceFirst] using h
  | cons a as ih =>
      intro h hd
      unfold namesDistinct at h ⊢
      simp only [List.map_cons, List.nodup_cons] at h
      obtain ⟨h1, h2⟩ := h
      by_cases ha : (a.name == n) = true
      · have han : a.name = n := by simpa using ha
        simp only [replaceFirst, if_pos ha, List.map_cons, List.nodup_cons]
        refine ⟨?_, h2⟩
        rcases hd with hdn | hall
        · rw [hdn, ← han]; exact h1
        · intro hc
          obtain ⟨x, hx, hxe⟩ := List.mem_map.mp hc
          exact hall x (List.mem_cons_of_mem a hx) hxe
      · have han : a.name ≠ n := by simpa using ha
        simp only [replaceFirst, if_neg ha, List.map_cons, List.nodup_cons]
        have hd' : d.name = n ∨ ∀ x ∈ as, x.name ≠ d.name := by
          rcases hd with hdn | hall
          · exact Or.inl hdn
          · exact Or.inr (fun x hx => hall x (List.mem_cons_of_mem a hx))
        refine ⟨?_, ih h2 hd'⟩
        intro hc
        obtain ⟨x, hx, hxe⟩ := List.mem_map.mp hc
        rcases replaceFirst_name_subset n d as x hx with h3 | h3
        · exact h1 (List.mem_map.mpr ⟨x, h3, hxe⟩)
        · subst h3
          rcases hd with hdn | hall
          · exact han (hxe ▸ hdn)
          · exact hall a (List.mem_cons_self a as) hxe.symm

/-- C1 (amended): starting from a state satisfying the name-uniqueness
invariant, every `add_constraint`, every `remove_constraint`, every
`update_constraint` whose mapping does not rename the constraint to a
different existing constraint's name, and every `update` that does not
install a constraints list with duplicate names, preserves the
invariant. -/
theorem constraint_name_uniqueness_preserved (st : ProjectSettings) (h : SettingsInv st) :
    (∀ c, SettingsInv (st.add_constraint c).2) ∧
    (∀ n, SettingsInv (st.remove_constraint n).2) ∧
    (∀ n u, (u.name = none ∨ u.name = some n ∨
        ∀ x ∈ st.reload_from_disk.project_snapshot.constraints, some x.name ≠ u.name) →
      SettingsInv (st.update_constraint n u).2) ∧
    (∀ u, (∀ cs, u.constraints = some cs → namesDistinct cs) →
      SettingsInv (st.update u)) := by
  have hre := settingsInv_reload st h
  refine ⟨?_, ?_, ?_, ?_⟩
  · intro c
    by_cases hc : (st.reload_from_disk.project_snapshot.constraints.any
        (fun x => x.name == c.name)) = true
    · simpa [ProjectSettings.add_constraint, hc] using hre
    · rw [Bool.not_eq_true] at hc
      have hmem := namesDistinct_append _ c hre.1 hc
      unfold ProjectSettings.add_constraint
      simp only [hc, Bool.false_eq_true, if_false]
      exact settingsInv_persist _ hmem
  · intro n
    unfold ProjectSettings.remove_constraint
    by_cases hlt : ((st.reload_from_disk.project_snapshot.constraints.filter
        (fun c => c.name != n)).length <
      st.reload_from_disk.project_snapshot.constraints.length)
    · simp only [decide_eq_true_eq, hlt, if_true]
      exact settingsInv_persist _ (namesDistinct_filter _ _ hre.1)
    · simp only [decide_eq_true_eq, hlt, if_false]
      exact ⟨namesDistinct_filter _ _ hre.1, fun s hs => hre.2 s hs⟩
  · intro n u hgood
    unfold ProjectSettings.update_constraint
    cases hf : st.reload_from_disk.project_snapshot.constraints.find?
        (fun x => x.name == n) with
    | none =>
        simp only [hf]
        exact hre
    | some c =>
        simp only [hf]
        have hcn : c.name = n := by simpa using List.find?_some hf
        have hd : (c.model_copy u).name = n ∨
            ∀ x ∈ st.reload_from_disk.project_snapshot.constraints,
              x.name ≠ (c.model_copy u).name := by
          rcases hgood with h0 | h0 | h0
          · left; simp [Constraint.model_copy, h0, hcn]
          · left; simp [Constraint.model_copy, h0]
          · cases hu : u.name with
            | none => left; simp [Constraint.model_copy, hu, hcn]
            | some m =>
                right
                intro x hx
                have hx' := h0 x hx
                rw [hu] at hx'
                simp only [Constraint.model_copy, hu, Option.getD_some]
                exact fun hcon => hx' (by rw [hcon])
        have hrepl := replaceFirst_nodup n (c.model_copy u) _ hre.1 hd
        exact settingsInv_persist _ hrepl
  · intro u hu
    unfold ProjectSettings.update
    cases hc : u.constraints with
    | none =>
        exact settingsInv_persist _
          (by simpa [ProjectSnapshot.model_copy, hc] using hre.1)
    | some cs =>
        exact settingsInv_persist _
          (by simpa [ProjectSnapshot.model_copy, hc] using hu cs hc)

/-- A concrete `hard` constraint named "c1" (counterexample input). -/
def cexA : Constraint := { name := "c1", description := "", type := CType.hard }

/-- A concrete `hard` constraint named "c2" (counterexample input). -/
def cexB : Constraint := { name := "c2", description := "", type := CType.hard }

/-- The state reached from an empty directory by successfully adding
"c1" and "c2" and then successfully renaming "c1" to "c2" via
`update_constraint`. -/
def cexState : ProjectSettings :=
  ((((⟨none, {}⟩ : ProjectSettings).add_constraint cexA).2.add_constraint
      cexB).2.update_constraint "c1" { name := some "c2" }).2

/-- C1 counterexample: from an empty directory, `add_constraint c1`,
`add_constraint c2` and `update_constraint "c1" {name: "c2"}` all
succeed, yet the resulting constraints list holds two constraints
named "c2" — the claimed uniqueness invariant is violated by a
successful `update_constraint` whose mapping contains the name
field. -/
theorem constraint_rename_creates_duplicate :
    (((⟨none, {}⟩ : ProjectSettings).add_constraint cexA).1 = Except.ok ()) ∧
    ((((⟨none, {}⟩ : ProjectSettings).add_constraint cexA).2.add_constraint cexB).1 =
      Except.ok ()) ∧
    (((((⟨none, {}⟩ : ProjectSettings).add_constraint cexA).2.add_constraint
        cexB).2.update_constraint "c1" { name := some "c2" }).1 = true) ∧
    ¬ namesDistinct cexState.project_snapshot.constraints := by
  refine ⟨rfl, rfl, rfl, ?_⟩
  unfold namesDistinct cexState
  decide

/-- Witness for `constraint_name_uniqueness_preserved` at the empty
initial state. -/
theorem constraint_name_uniqueness_preserved_witness :
    SettingsInv ((⟨none, {}⟩ : ProjectSettings).add_constraint cexA).2 ∧
    SettingsInv ((⟨none, {}⟩ : ProjectSettings).remove_constraint "z").2 ∧
    SettingsInv ((⟨none, {}⟩ : ProjectSettings).update_constraint "z" {}).2 ∧
    SettingsInv ((⟨none, {}⟩ : ProjectSettings).update { title := some (some "T") }) := by
  have h0 : SettingsInv (⟨none, {}⟩ : ProjectSettings) :=
    ⟨by simp [namesDistinct], fun s hs => nomatch hs⟩
  have h := constraint_name_uniqueness_preserved ⟨none, {}⟩ h0
  exact ⟨h.1 cexA, h.2.1 "z", h.2.2.1 "z" {} (Or.inl rfl),
    h.2.2.2 { title := some (some "T") } (fun cs hcs => nomatch hcs)⟩
